import Mathlib

/-!
Shallow embedding of the Student Course Management API
(src/main.py, src/models.py, src/schemas.py).

The store is a relational database reached through a session; the
repository's `database.py` is not available, so the store contract is
modelled from the spec (section 4.2): `insert` appends in insertion
order and assigns a fresh id from a monotone counter, `list` returns
insertion order with offset/limit, row lookups scan in insertion order.
Handlers are translated directly from `src/main.py`.

Python runtime objects admit `None` in any attribute (a partial update
may assign `None` via `setattr`), so stored attribute values of
nullable-at-runtime columns are modelled as `Option`.

A commit may fail at write time with an `IntegrityError`; the handlers
that catch it (`create_student`, `update_student`) and the one that
does not (`create_enrollment`) take the commit outcome as an explicit
`WriteOutcome` parameter chosen by the environment.
-/

set_option autoImplicit false

namespace SCM

/-- Outcome of a `session.commit()`: either the write succeeds, or the
store raises an `IntegrityError` (a constraint violation detected at
write time, e.g. a race between the pre-check and the insert). -/
inductive WriteOutcome where
  | ok
  | integrityError
deriving DecidableEq

/-- A pydantic patch field: `unset` when the field was absent from the
request body, `set v` when it was supplied (possibly as null).
`model_dump(exclude_unset=True)` keeps exactly the `set` fields. -/
inductive PField (α : Type) where
  | unset
  | set (v : α)
deriving DecidableEq

/-- Pydantic attribute access: an unset optional field reads as its
default `None`; a set field reads as its value. -/
def PField.val {α : Type} : PField (Option α) → Option α
  | .unset => none
  | .set v => v

/-- The `setattr` semantics of the `exclude_unset` update loop on one
field: a set field overwrites, an unset field is left untouched. -/
def PField.apply {α : Type} : PField α → α → α
  | .unset, old => old
  | .set v, _ => v

/-- Python truthiness of a string-or-None value: `None` and the empty
string are falsy. -/
def truthyStr : Option String → Bool
  | none => false
  | some s => !(s == "")

/-- Row of the `student` table (src/models.py, class Student). -/
structure Student where
  id : Nat
  name : Option String
  email : Option String
  age : Option Int
  created_at : Nat
  updated_at : Nat
deriving DecidableEq

/-- Row of the `course` table (src/models.py, class Course). -/
structure Course where
  id : Nat
  title : Option String
  description : Option String
  credits : Option Int
  instructor : Option String
  created_at : Nat
  updated_at : Nat
deriving DecidableEq

/-- Row of the `enrollment` table (src/models.py, class Enrollment).
`student_id` and `course_id` are plain ints and no update schema ever
assigns them, so they are not wrapped in `Option`. -/
structure Enrollment where
  id : Nat
  student_id : Nat
  course_id : Nat
  grade : Option String
  enrollment_date : Nat
deriving DecidableEq

/-- Modelled from the spec: the relational store (`database.py` is not
under src/). Tables hold rows in insertion order; each table has a
monotone id counter so that `insert` assigns a unique id. -/
structure Store where
  students : List Student
  courses : List Course
  enrollments : List Enrollment
  nextStudentId : Nat
  nextCourseId : Nat
  nextEnrollmentId : Nat
deriving DecidableEq

/-- The empty store (fresh database). -/
def emptyStore : Store :=
  { students := [], courses := [], enrollments := []
    nextStudentId := 1, nextCourseId := 1, nextEnrollmentId := 1 }

/-- A handler outcome: a success with its HTTP status and payload, or
an `HTTPException` with its status and detail message. -/
inductive HResult (α : Type) where
  | success (statusCode : Nat) (value : α)
  | failure (statusCode : Nat) (detail : String)
deriving DecidableEq

-- ===== request schemas (src/schemas.py) =====

/-- StudentCreate (src/schemas.py): all base fields required. -/
structure StudentCreate where
  name : String
  email : String
  age : Int
deriving DecidableEq

/-- StudentUpdate (src/schemas.py): every field optional; presence is
tracked so that a field set to null is distinct from an absent one. -/
structure StudentUpdate where
  name : PField (Option String)
  email : PField (Option String)
  age : PField (Option Int)
deriving DecidableEq

/-- CourseCreate (src/schemas.py). -/
structure CourseCreate where
  title : String
  description : Option String
  credits : Int
  instructor : String
deriving DecidableEq

/-- CourseUpdate (src/schemas.py): every field optional. -/
structure CourseUpdate where
  title : PField (Option String)
  description : PField (Option String)
  credits : PField (Option Int)
  instructor : PField (Option String)
deriving DecidableEq

/-- EnrollmentCreate (src/schemas.py). -/
structure EnrollmentCreate where
  student_id : Nat
  course_id : Nat
  grade : Option String
deriving DecidableEq

/-- EnrollmentUpdate (src/schemas.py): exposes only grade. -/
structure EnrollmentUpdate where
  grade : PField (Option String)
deriving DecidableEq

-- ===== store lookups =====

/-- Embeds `session.get(Student, sid)`: primary-key lookup. -/
def get_student_row (s : Store) (sid : Nat) : Option Student :=
  s.students.find? (fun t => t.id == sid)

/-- Embeds `session.get(Course, cid)`. -/
def get_course_row (s : Store) (cid : Nat) : Option Course :=
  s.courses.find? (fun c => c.id == cid)

/-- Embeds `session.get(Enrollment, eid)`. -/
def get_enrollment_row (s : Store) (eid : Nat) : Option Enrollment :=
  s.enrollments.find? (fun e => e.id == eid)

/-- Embeds `select(Student).where(Student.email == e).first()`. -/
def find_student_by_email (s : Store) (e : Option String) : Option Student :=
  s.students.find? (fun t => t.email == e)

/-- Embeds `select(Enrollment).where(student_id == sid, course_id == cid).first()`. -/
def find_enrollment_by_pair (s : Store) (sid cid : Nat) : Option Enrollment :=
  s.enrollments.find? (fun e => e.student_id == sid && e.course_id == cid)

-- ===== student endpoints (src/main.py) =====

/-- POST /students/ (src/main.py create_student, lines 82-119): check
the email against existing students, else insert; an `IntegrityError`
raised at commit is caught and mapped to a 400. -/
def create_student (student : StudentCreate) (w : WriteOutcome) (s : Store)
    (now : Nat) : HResult Student × Store :=
  match find_student_by_email s (some student.email) with
  | some _ => (.failure 400 "Email already registered", s)
  | none =>
    match w with
    | .ok =>
      let db : Student :=
        { id := s.nextStudentId, name := some student.name
          email := some student.email, age := some student.age
          created_at := now, updated_at := now }
      (.success 201 db,
        { s with students := s.students ++ [db]
                 nextStudentId := s.nextStudentId + 1 })
    | .integrityError =>
      (.failure 400 "Failed to create student. Email may already exist.", s)

/-- GET /students/ (src/main.py read_students, lines 122-135):
insertion order with offset/limit. -/
def read_students (skip limit : Nat) (s : Store) : List Student :=
  (s.students.drop skip).take limit

/-- GET /students/{id} (src/main.py read_student, lines 138-159). -/
def read_student (sid : Nat) (s : Store) : HResult Student :=
  match get_student_row s sid with
  | none => .failure 404 "Student not found"
  | some st => .success 200 st

/-- The update loop of update_student: `setattr` for every field kept
by `model_dump(exclude_unset=True)`, then `updated_at = now`. -/
def apply_student_update (u : StudentUpdate) (db : Student) (now : Nat) : Student :=
  { db with
    name := u.name.apply db.name
    email := u.email.apply db.email
    age := u.age.apply db.age
    updated_at := now }

/-- PUT /students/{id} (src/main.py update_student, lines 162-212):
404 when absent; the uniqueness re-check runs only when the supplied
email is truthy and differs from the current value; then the patch is
applied and committed (`IntegrityError` mapped to 400). The parameter
`w` is the outcome the store reports for the commit; the store is not
free to choose it when the patched row breaks a NOT NULL column — that
mandatory `IntegrityError` is enforced by `student_commit_outcome`,
composed in `update_student_store` below. -/
def update_student (sid : Nat) (u : StudentUpdate) (w : WriteOutcome)
    (s : Store) (now : Nat) : HResult Student × Store :=
  match get_student_row s sid with
  | none => (.failure 404 "Student not found", s)
  | some db =>
    let pe := u.email.val
    let db2 := apply_student_update u db now
    let committed : HResult Student × Store :=
      match w with
      | .ok =>
        (.success 200 db2,
          { s with students :=
              s.students.map (fun t => if t.id == sid then db2 else t) })
      | .integrityError =>
        (.failure 400 "Failed to update student. Email may already exist.", s)
    if truthyStr pe && !(pe == db.email) then
      match find_student_by_email s pe with
      | some _ => (.failure 400 "Email already registered", s)
      | none => committed
    else committed

/-- NOT NULL satisfaction of a student row: src/models.py declares
name, email and age as non-Optional columns, so a row is storable only
when all three are present. -/
def student_row_not_null (t : Student) : Bool :=
  t.name.isSome && t.email.isSome && t.age.isSome

/-- Modelled from the spec (section 4.2, the store is the final
authority on constraints) and src/models.py: the commit outcome the
store can actually produce for a student row. A row violating a
NOT NULL column always raises `IntegrityError`; for a well-formed row
the outcome is the environment choice `w` (which can still be
`IntegrityError`, e.g. a uniqueness race). -/
def student_commit_outcome (t : Student) (w : WriteOutcome) : WriteOutcome :=
  if student_row_not_null t then w else .integrityError

/-- PUT /students/{id} composed with the store enforcement: the commit
outcome passed to the handler is forced through
`student_commit_outcome` on the row the handler writes, so a patch
that nulls a mandatory column cannot commit. -/
def update_student_store (sid : Nat) (u : StudentUpdate) (w : WriteOutcome)
    (s : Store) (now : Nat) : HResult Student × Store :=
  match get_student_row s sid with
  | none => update_student sid u w s now
  | some db =>
    update_student sid u
      (student_commit_outcome (apply_student_update u db now) w) s now

/-- DELETE /students/{id} (src/main.py delete_student, lines 215-240):
404 when absent, otherwise delete the row unconditionally (no cascade:
enrollments are untouched). -/
def delete_student (sid : Nat) (s : Store) : HResult Unit × Store :=
  match get_student_row s sid with
  | none => (.failure 404 "Student not found", s)
  | some _ =>
    (.success 204 (),
      { s with students := s.students.filter (fun t => !(t.id == sid)) })

-- ===== course endpoints (src/main.py) =====

/-- POST /courses/ (src/main.py create_course, lines 245-262): no
pre-check, plain insert. -/
def create_course (course : CourseCreate) (s : Store) (now : Nat) :
    HResult Course × Store :=
  let db : Course :=
    { id := s.nextCourseId, title := some course.title
      description := course.description, credits := some course.credits
      instructor := some course.instructor
      created_at := now, updated_at := now }
  (.success 201 db,
    { s with courses := s.courses ++ [db], nextCourseId := s.nextCourseId + 1 })

/-- GET /courses/ (src/main.py read_courses, lines 265-278). -/
def read_courses (skip limit : Nat) (s : Store) : List Course :=
  (s.courses.drop skip).take limit

/-- GET /courses/{id} (src/main.py read_course, lines 281-302). -/
def read_course (cid : Nat) (s : Store) : HResult Course :=
  match get_course_row s cid with
  | none => .failure 404 "Course not found"
  | some c => .success 200 c

/-- The update loop of update_course. -/
def apply_course_update (u : CourseUpdate) (db : Course) (now : Nat) : Course :=
  { db with
    title := u.title.apply db.title
    description := u.description.apply db.description
    credits := u.credits.apply db.credits
    instructor := u.instructor.apply db.instructor
    updated_at := now }

/-- PUT /courses/{id} (src/main.py update_course, lines 305-338): 404
when absent, otherwise apply the supplied fields and refresh
updated_at. -/
def update_course (cid : Nat) (u : CourseUpdate) (s : Store) (now : Nat) :
    HResult Course × Store :=
  match get_course_row s cid with
  | none => (.failure 404 "Course not found", s)
  | some db =>
    let db2 := apply_course_update u db now
    (.success 200 db2,
      { s with courses :=
          s.courses.map (fun c => if c.id == cid then db2 else c) })

/-- DELETE /courses/{id} (src/main.py delete_course, lines 341-366). -/
def delete_course (cid : Nat) (s : Store) : HResult Unit × Store :=
  match get_course_row s cid with
  | none => (.failure 404 "Course not found", s)
  | some _ =>
    (.success 204 (),
      { s with courses := s.courses.filter (fun c => !(c.id == cid)) })

-- ===== enrollment endpoints (src/main.py) =====

/-- POST /enrollments/ (src/main.py create_enrollment, lines 371-424):
verify the student, then the course, then the pair, then insert with
enrollment_date = now. The handler catches only `HTTPException` and the
generic `Exception`, so an `IntegrityError` raised at commit falls into
the generic branch and becomes a 500. -/
def create_enrollment (enrollment : EnrollmentCreate) (w : WriteOutcome)
    (s : Store) (now : Nat) : HResult Enrollment × Store :=
  match get_student_row s enrollment.student_id with
  | none => (.failure 404 "Student not found", s)
  | some _ =>
    match get_course_row s enrollment.course_id with
    | none => (.failure 404 "Course not found", s)
    | some _ =>
      match find_enrollment_by_pair s enrollment.student_id enrollment.course_id with
      | some _ => (.failure 400 "Student already enrolled in this course", s)
      | none =>
        match w with
        | .ok =>
          let db : Enrollment :=
            { id := s.nextEnrollmentId
              student_id := enrollment.student_id
              course_id := enrollment.course_id
              grade := enrollment.grade
              enrollment_date := now }
          (.success 201 db,
            { s with enrollments := s.enrollments ++ [db]
                     nextEnrollmentId := s.nextEnrollmentId + 1 })
        | .integrityError =>
          (.failure 500 "An error occurred while creating the enrollment", s)

/-- GET /enrollments/ (src/main.py read_enrollments, lines 427-440). -/
def read_enrollments (skip limit : Nat) (s : Store) : List Enrollment :=
  (s.enrollments.drop skip).take limit

/-- GET /enrollments/{id} (src/main.py read_enrollment, lines 443-463). -/
def read_enrollment (eid : Nat) (s : Store) : HResult Enrollment :=
  match get_enrollment_row s eid with
  | none => .failure 404 "Enrollment not found"
  | some e => .success 200 e

/-- PUT /enrollments/{id} (src/main.py update_enrollment, lines
518-550): 404 when absent; the patch exposes only grade and there is no
updated_at on Enrollment. -/
def update_enrollment (eid : Nat) (u : EnrollmentUpdate) (s : Store) :
    HResult Enrollment × Store :=
  match get_enrollment_row s eid with
  | none => (.failure 404 "Enrollment not found", s)
  | some db =>
    let db2 := { db with grade := u.grade.apply db.grade }
    (.success 200 db2,
      { s with enrollments :=
          s.enrollments.map (fun e => if e.id == eid then db2 else e) })

/-- DELETE /enrollments/{id} (src/main.py delete_enrollment, lines
553-578). -/
def delete_enrollment (eid : Nat) (s : Store) : HResult Unit × Store :=
  match get_enrollment_row s eid with
  | none => (.failure 404 "Enrollment not found", s)
  | some _ =>
    (.success 204 (),
      { s with enrollments := s.enrollments.filter (fun e => !(e.id == eid)) })

-- ===== validation layer (src/schemas.py, FastAPI request parsing) =====

/-- Split a character list at every at-sign. -/
def split_at_sign : List Char → List (List Char)
  | [] => [[]]
  | c :: rest =>
    let r := split_at_sign rest
    if c = '@' then [] :: r
    else
      match r with
      | [] => [[c]]
      | h :: t => (c :: h) :: t

/-- Modelled from the spec: pydantic `EmailStr` is an external
dependency; the spec requires the email to be syntactically valid. A
single at-sign with a nonempty local part and a dotted nonempty
domain. -/
def valid_email (e : String) : Bool :=
  match split_at_sign e.data with
  | [lpart, dpart] =>
    !(lpart.isEmpty) && !(dpart.isEmpty) && dpart.contains '.'
  | _ => false

/-- src/schemas.py StudentCreate bounds: name 1-100 chars, valid
email, age between 1 and 150 inclusive. -/
def student_create_valid (c : StudentCreate) : Bool :=
  decide (1 ≤ c.name.length) && decide (c.name.length ≤ 100) &&
  valid_email c.email &&
  decide (1 ≤ c.age) && decide (c.age ≤ 150)

/-- A constraint on an optional patch field applies only when a
non-null value was supplied. -/
def pfield_valid {α : Type} (p : PField (Option α)) (f : α → Bool) : Bool :=
  match p with
  | .set (some v) => f v
  | _ => true

/-- src/schemas.py StudentUpdate bounds. -/
def student_update_valid (u : StudentUpdate) : Bool :=
  pfield_valid u.name (fun v => decide (1 ≤ v.length) && decide (v.length ≤ 100)) &&
  pfield_valid u.email valid_email &&
  pfield_valid u.age (fun a => decide (1 ≤ a) && decide (a ≤ 150))

/-- src/schemas.py CourseCreate bounds: title 1-200, description up to
1000 when present, credits 1-10, instructor 1-100. -/
def course_create_valid (c : CourseCreate) : Bool :=
  decide (1 ≤ c.title.length) && decide (c.title.length ≤ 200) &&
  (match c.description with
   | none => true
   | some d => decide (d.length ≤ 1000)) &&
  decide (1 ≤ c.credits) && decide (c.credits ≤ 10) &&
  decide (1 ≤ c.instructor.length) && decide (c.instructor.length ≤ 100)

/-- src/schemas.py CourseUpdate bounds. -/
def course_update_valid (u : CourseUpdate) : Bool :=
  pfield_valid u.title (fun v => decide (1 ≤ v.length) && decide (v.length ≤ 200)) &&
  pfield_valid u.description (fun v => decide (v.length ≤ 1000)) &&
  pfield_valid u.credits (fun a => decide (1 ≤ a) && decide (a ≤ 10)) &&
  pfield_valid u.instructor (fun v => decide (1 ≤ v.length) && decide (v.length ≤ 100))

/-- src/schemas.py EnrollmentCreate bounds: grade up to 2 chars when
present; the ids are unconstrained ints. -/
def enrollment_create_valid (c : EnrollmentCreate) : Bool :=
  match c.grade with
  | none => true
  | some g => decide (g.length ≤ 2)

/-- src/schemas.py EnrollmentUpdate bounds. -/
def enrollment_update_valid (u : EnrollmentUpdate) : Bool :=
  pfield_valid u.grade (fun g => decide (g.length ≤ 2))

/-- Modelled from the spec: FastAPI parses and validates the body
before the handler runs, so a schema violation yields a 422 and the
handler (hence the store) is never reached. Full POST /students/. -/
def post_students (c : StudentCreate) (w : WriteOutcome) (s : Store)
    (now : Nat) : HResult Student × Store :=
  if student_create_valid c then create_student c w s now
  else (.failure 422 "validation error", s)

/-- Full PUT /students/{id} including body validation and the store's
NOT NULL enforcement. -/
def put_students (sid : Nat) (u : StudentUpdate) (w : WriteOutcome)
    (s : Store) (now : Nat) : HResult Student × Store :=
  if student_update_valid u then update_student_store sid u w s now
  else (.failure 422 "validation error", s)

/-- Full POST /courses/ including body validation. -/
def post_courses (c : CourseCreate) (s : Store) (now : Nat) :
    HResult Course × Store :=
  if course_create_valid c then create_course c s now
  else (.failure 422 "validation error", s)

/-- Full PUT /courses/{id} including body validation. -/
def put_courses (cid : Nat) (u : CourseUpdate) (s : Store) (now : Nat) :
    HResult Course × Store :=
  if course_update_valid u then update_course cid u s now
  else (.failure 422 "validation error", s)

/-- Full POST /enrollments/ including body validation. -/
def post_enrollments (c : EnrollmentCreate) (w : WriteOutcome) (s : Store)
    (now : Nat) : HResult Enrollment × Store :=
  if enrollment_create_valid c then create_enrollment c w s now
  else (.failure 422 "validation error", s)

/-- Full PUT /enrollments/{id} including body validation. -/
def put_enrollments (eid : Nat) (u : EnrollmentUpdate) (s : Store) :
    HResult Enrollment × Store :=
  if enrollment_update_valid u then update_enrollment eid u s
  else (.failure 422 "validation error", s)

-- ===== operation traces =====

/-- One mutating API operation, with the time of the call and (where
the handler commits under a pre-check) the write outcome chosen by the
store. Read-only endpoints take the store only as input and cannot
change it. -/
inductive Op where
  | opCreateStudent (c : StudentCreate) (w : WriteOutcome) (now : Nat)
  | opUpdateStudent (sid : Nat) (u : StudentUpdate) (w : WriteOutcome) (now : Nat)
  | opDeleteStudent (sid : Nat)
  | opCreateCourse (c : CourseCreate) (now : Nat)
  | opUpdateCourse (cid : Nat) (u : CourseUpdate) (now : Nat)
  | opDeleteCourse (cid : Nat)
  | opCreateEnrollment (c : EnrollmentCreate) (w : WriteOutcome) (now : Nat)
  | opUpdateEnrollment (eid : Nat) (u : EnrollmentUpdate)
  | opDeleteEnrollment (eid : Nat)

/-- The store left behind by one operation. -/
def apply_op (s : Store) : Op → Store
  | .opCreateStudent c w now => (create_student c w s now).2
  | .opUpdateStudent sid u w now => (update_student sid u w s now).2
  | .opDeleteStudent sid => (delete_student sid s).2
  | .opCreateCourse c now => (create_course c s now).2
  | .opUpdateCourse cid u now => (update_course cid u s now).2
  | .opDeleteCourse cid => (delete_course cid s).2
  | .opCreateEnrollment c w now => (create_enrollment c w s now).2
  | .opUpdateEnrollment eid u => (update_enrollment eid u s).2
  | .opDeleteEnrollment eid => (delete_enrollment eid s).2

/-- Run a sequence of operations from the empty store. -/
def run_ops (l : List Op) : Store := l.foldl apply_op emptyStore

/-- The student ids handed out by the successful student creations of
a trace starting at `s`. -/
def created_student_ids : Store → List Op → List Nat
  | _, [] => []
  | s, op :: rest =>
    let tail := created_student_ids (apply_op s op) rest
    match op with
    | .opCreateStudent c w now =>
      match (create_student c w s now).1 with
      | .success _ db => db.id :: tail
      | .failure _ _ => tail
    | _ => tail

-- ===== theorems =====

/-- C1: POST /enrollments/ evaluates its preconditions in a fixed
order, each failure short-circuiting the rest: a missing student gives
a 404 naming the student regardless of the course id; otherwise a
missing course gives a 404 naming the course; otherwise an existing
(student_id, course_id) pair gives a 400 naming the duplicate
enrollment; otherwise the enrollment is inserted with enrollment_date
set to the current time and a 201 is returned. -/
theorem C1_create_enrollment_chain :
    (∀ (s : Store) (c : EnrollmentCreate) (w : WriteOutcome) (now : Nat),
      get_student_row s c.student_id = none →
      create_enrollment c w s now = (.failure 404 "Student not found", s)) ∧
    (∀ (s : Store) (c : EnrollmentCreate) (w : WriteOutcome) (now : Nat)
      (st : Student),
      get_student_row s c.student_id = some st →
      get_course_row s c.course_id = none →
      create_enrollment c w s now = (.failure 404 "Course not found", s)) ∧
    (∀ (s : Store) (c : EnrollmentCreate) (w : WriteOutcome) (now : Nat)
      (st : Student) (co : Course) (e : Enrollment),
      get_student_row s c.student_id = some st →
      get_course_row s c.course_id = some co →
      find_enrollment_by_pair s c.student_id c.course_id = some e →
      create_enrollment c w s now =
        (.failure 400 "Student already enrolled in this course", s)) ∧
    (∀ (s : Store) (c : EnrollmentCreate) (now : Nat)
      (st : Student) (co : Course),
      get_student_row s c.student_id = some st →
      get_course_row s c.course_id = some co →
      find_enrollment_by_pair s c.student_id c.course_id = none →
      create_enrollment c .ok s now =
        (.success 201
          { id := s.nextEnrollmentId, student_id := c.student_id
            course_id := c.course_id, grade := c.grade
            enrollment_date := now },
          { s with
              enrollments := s.enrollments ++
                [{ id := s.nextEnrollmentId, student_id := c.student_id
                   course_id := c.course_id, grade := c.grade
                   enrollment_date := now }]
              nextEnrollmentId := s.nextEnrollmentId + 1 })) := by
  refine ⟨?_, ?_, ?_, ?_⟩ <;> intros <;> simp [create_enrollment, *]

/-- Witness for C1: on the empty store every enrollment creation fails
with the student-naming 404, even though the course id is invalid too. -/
theorem C1_witness :
    create_enrollment ⟨1, 1, none⟩ .ok emptyStore 0 =
      (.failure 404 "Student not found", emptyStore) :=
  C1_create_enrollment_chain.1 emptyStore ⟨1, 1, none⟩ .ok 0 rfl

/-- No operation ever decreases the student-id counter. -/
lemma nextStudentId_apply_op (s : Store) (op : Op) :
    s.nextStudentId ≤ (apply_op s op).nextStudentId := by
  cases op <;>
    simp only [apply_op, create_student, update_student, delete_student,
      create_course, update_course, delete_course, create_enrollment,
      update_enrollment, delete_enrollment] <;>
    (repeat' split) <;> simp

/-- A successful student creation hands out the current counter value
and bumps the counter. -/
lemma create_student_success_fst (s : Store) (c : StudentCreate)
    (w : WriteOutcome) (now : Nat) (code : Nat) (db : Student)
    (h : (create_student c w s now).1 = .success code db) :
    db.id = s.nextStudentId ∧
      (create_student c w s now).2.nextStudentId = s.nextStudentId + 1 := by
  unfold create_student at h ⊢
  cases hf : find_student_by_email s (some c.email)
  · cases w <;> simp_all
    rw [← h.2]
  · simp [hf] at h

/-- Every id created along a trace is at least the starting counter. -/
lemma created_ids_lower (l : List Op) : ∀ (s : Store) (x : Nat),
    x ∈ created_student_ids s l → s.nextStudentId ≤ x := by
  induction l with
  | nil => intro s x h; simp [created_student_ids] at h
  | cons op rest ih =>
    intro s x h
    have hmono := nextStudentId_apply_op s op
    cases op with
    | opCreateStudent c w now =>
      simp only [created_student_ids] at h
      cases hr : (create_student c w s now).1 with
      | success code db =>
        rw [hr] at h
        simp only [List.mem_cons] at h
        cases h with
        | inl h =>
          have := (create_student_success_fst s c w now code db hr).1
          omega
        | inr h => exact le_trans hmono (ih _ _ h)
      | failure code d =>
        rw [hr] at h
        exact le_trans hmono (ih _ _ h)
    | opUpdateStudent sid u w now =>
      simp only [created_student_ids] at h
      exact le_trans hmono (ih _ _ h)
    | opDeleteStudent sid =>
      simp only [created_student_ids] at h
      exact le_trans hmono (ih _ _ h)
    | opCreateCourse c now =>
      simp only [created_student_ids] at h
      exact le_trans hmono (ih _ _ h)
    | opUpdateCourse cid u now =>
      simp only [created_student_ids] at h
      exact le_trans hmono (ih _ _ h)
    | opDeleteCourse cid =>
      simp only [created_student_ids] at h
      exact le_trans hmono (ih _ _ h)
    | opCreateEnrollment c w now =>
      simp only [created_student_ids] at h
      exact le_trans hmono (ih _ _ h)
    | opUpdateEnrollment eid u =>
      simp only [created_student_ids] at h
      exact le_trans hmono (ih _ _ h)
    | opDeleteEnrollment eid =>
      simp only [created_student_ids] at h
      exact le_trans hmono (ih _ _ h)

/-- Along any trace the created student ids are pairwise distinct. -/
lemma created_ids_nodup (l : List Op) : ∀ s : Store,
    (created_student_ids s l).Nodup := by
  induction l with
  | nil => intro s; simp [created_student_ids]
  | cons op rest ih =>
    intro s
    cases op with
    | opCreateStudent c w now =>
      simp only [created_student_ids]
      cases hr : (create_student c w s now).1 with
      | failure code d => exact ih _
      | success code db =>
        show (db.id ::
          created_student_ids (apply_op s (.opCreateStudent c w now)) rest).Nodup
        refine List.nodup_cons.mpr ⟨?_, ih _⟩
        intro hmem
        have hlow := created_ids_lower rest _ db.id hmem
        have hs := create_student_success_fst s c w now code db hr
        have hnext : (apply_op s (.opCreateStudent c w now)).nextStudentId
            = s.nextStudentId + 1 := hs.2
        rw [hnext] at hlow
        omega
    | opUpdateStudent sid u w now => simp only [created_student_ids]; exact ih _
    | opDeleteStudent sid => simp only [created_student_ids]; exact ih _
    | opCreateCourse c now => simp only [created_student_ids]; exact ih _
    | opUpdateCourse cid u now => simp only [created_student_ids]; exact ih _
    | opDeleteCourse cid => simp only [created_student_ids]; exact ih _
    | opCreateEnrollment c w now => simp only [created_student_ids]; exact ih _
    | opUpdateEnrollment eid u => simp only [created_student_ids]; exact ih _
    | opDeleteEnrollment eid => simp only [created_student_ids]; exact ih _

/-- C4: POST /students/ with an email some existing student already
has returns a 400 conflict and leaves the store unchanged; with a
fresh email it inserts the student and returns 201, the stored and
returned email is exactly the input email, and (third conjunct) every
id handed out over any history of operations is distinct from every
previously assigned one. -/
theorem C4_create_student_spec :
    (∀ (s : Store) (c : StudentCreate) (w : WriteOutcome) (now : Nat)
      (t : Student), t ∈ s.students → t.email = some c.email →
      create_student c w s now = (.failure 400 "Email already registered", s)) ∧
    (∀ (s : Store) (c : StudentCreate) (now : Nat),
      (∀ t ∈ s.students, t.email ≠ some c.email) →
      create_student c .ok s now =
        (.success 201
          { id := s.nextStudentId, name := some c.name
            email := some c.email, age := some c.age
            created_at := now, updated_at := now },
          { s with
              students := s.students ++
                [{ id := s.nextStudentId, name := some c.name
                   email := some c.email, age := some c.age
                   created_at := now, updated_at := now }]
              nextStudentId := s.nextStudentId + 1 })) ∧
    (∀ l : List Op, (created_student_ids emptyStore l).Nodup) := by
  refine ⟨?_, ?_, fun l => created_ids_nodup l emptyStore⟩
  · intro s c w now t hmem hemail
    unfold create_student
    cases hf : find_student_by_email s (some c.email) with
    | some a => simp
    | none =>
      exfalso
      have := List.find?_eq_none.mp hf t hmem
      simp [hemail] at this
  · intro s c now hfresh
    unfold create_student
    have hf : find_student_by_email s (some c.email) = none := by
      apply List.find?_eq_none.mpr
      intro t hmem
      simpa using hfresh t hmem
    rw [hf]

/-- Witness for C4: creating a student in the empty store succeeds
with id 1 and the input email. -/
theorem C4_witness :
    create_student ⟨"John Doe", "john@example.com", 20⟩ .ok emptyStore 3 =
      (.success 201
        { id := 1, name := some "John Doe", email := some "john@example.com"
          age := some 20, created_at := 3, updated_at := 3 },
        { emptyStore with
            students :=
              [{ id := 1, name := some "John Doe"
                 email := some "john@example.com", age := some 20
                 created_at := 3, updated_at := 3 }]
            nextStudentId := 2 }) :=
  C4_create_student_spec.2.1 emptyStore ⟨"John Doe", "john@example.com", 20⟩ 3
    (by simp [emptyStore])

/-- The stored record of the worked example: John Doe as created. -/
def johnBefore : Student :=
  { id := 1, name := some "John Doe", email := some "john@example.com"
    age := some 20, created_at := 0, updated_at := 0 }

/-- A store holding exactly John Doe. -/
def johnStore : Store :=
  { students := [johnBefore], courses := [], enrollments := []
    nextStudentId := 2, nextCourseId := 1, nextEnrollmentId := 1 }

/-- The patch PUT body of the worked example: name and age supplied,
email absent. -/
def johnPatch : StudentUpdate :=
  { name := .set (some "John Updated"), email := .unset, age := .set (some 21) }

/-- John Doe after the worked-example update at time 5. -/
def johnAfter : Student :=
  { id := 1, name := some "John Updated", email := some "john@example.com"
    age := some 21, created_at := 0, updated_at := 5 }

/-- C5: a partial student update changes exactly the supplied fields:
on any successful update the result is the stored record with only the
set fields overwritten, so every unset field keeps its stored value;
in the worked example the response and the stored record keep
email john@example.com. A field explicitly set to null counts as
supplied, not absent: where an unset name leaves the update loop
writing the old name, a null name is written into the row by the
update loop, and that row then necessarily fails the NOT NULL commit,
so the endpoint returns the 400 IntegrityError translation with the
store unchanged — the null is never silently dropped. -/
theorem C5_partial_update_frame :
    (∀ (s : Store) (sid : Nat) (u : StudentUpdate) (w : WriteOutcome)
      (now : Nat) (st r : Student) (s2 : Store),
      get_student_row s sid = some st →
      update_student sid u w s now = (.success 200 r, s2) →
      r = apply_student_update u st now ∧
      (u.name = .unset → r.name = st.name) ∧
      (u.email = .unset → r.email = st.email) ∧
      (u.age = .unset → r.age = st.age) ∧
      r.id = st.id ∧ r.created_at = st.created_at) ∧
    (update_student 1 johnPatch .ok johnStore 5 =
      (.success 200 johnAfter, { johnStore with students := [johnAfter] })) ∧
    ((apply_student_update
        { name := .unset, email := .unset, age := .unset } johnBefore 5).name
      = some "John Doe") ∧
    ((apply_student_update
        { name := .set none, email := .unset, age := .unset } johnBefore 5).name
      = none) ∧
    (∀ w : WriteOutcome,
      update_student_store 1
        { name := .set none, email := .unset, age := .unset } w johnStore 5 =
        (.failure 400 "Failed to update student. Email may already exist.",
         johnStore)) := by
  refine ⟨?_, by decide, by decide, by decide, fun w => by cases w <;> decide⟩
  intro s sid u w now st r s2 hget hupd
  simp only [update_student, hget] at hupd
  cases w with
  | integrityError => split at hupd <;> (try split at hupd) <;> simp_all
  | ok =>
    have hr : r = apply_student_update u st now := by
      split at hupd <;> (try split at hupd) <;> simp_all
    subst hr
    refine ⟨rfl, ?_, ?_, ?_, rfl, rfl⟩ <;>
      intro hu <;> simp [apply_student_update, hu, PField.apply]

/-- Witness for C5: in the worked example the unsupplied email and the
id survive the update unchanged. -/
theorem C5_witness : johnAfter.email = johnBefore.email ∧ johnAfter.id = johnBefore.id := by
  have h := C5_partial_update_frame.1 johnStore 1 johnPatch .ok 5 johnBefore johnAfter
    { johnStore with students := [johnAfter] } (by decide) (by decide)
  exact ⟨h.2.2.1 rfl, h.2.2.2.2.1⟩

/-- C6: the email-uniqueness re-check of PUT /students/{id} runs only
when the supplied email is truthy and differs from the current value:
supplying the current email commits without any conflict, while
supplying an email held by another existing student fails with a 400
conflict and leaves the store unchanged. -/
theorem C6_update_email_uniqueness :
    (∀ (s : Store) (sid : Nat) (u : StudentUpdate) (now : Nat) (st : Student),
      get_student_row s sid = some st →
      u.email.val = st.email →
      update_student sid u .ok s now =
        (.success 200 (apply_student_update u st now),
         { s with students := s.students.map (fun t =>
             if t.id == sid then apply_student_update u st now else t) })) ∧
    (∀ (s : Store) (sid : Nat) (u : StudentUpdate) (w : WriteOutcome)
      (now : Nat) (st other : Student) (e : String),
      get_student_row s sid = some st →
      u.email.val = some e → e ≠ "" → some e ≠ st.email →
      other ∈ s.students → other.email = some e →
      update_student sid u w s now =
        (.failure 400 "Email already registered", s)) := by
  constructor
  · intro s sid u now st hget hsame
    simp only [update_student, hget, hsame]
    simp [truthyStr]
  · intro s sid u w now st other e hget hval he hne hmem hoe
    have hcond : (truthyStr (some e) && !((some e : Option String) == st.email)) = true := by
      simp [truthyStr, he]
      exact hne
    cases hf : find_student_by_email s (some e) with
    | some a =>
      simp only [update_student, hget, hval]
      rw [hcond]
      simp [hf]
    | none =>
      exfalso
      have := List.find?_eq_none.mp hf other hmem
      simp [hoe] at this

/-- Witness for C6: updating John with his own current email succeeds
with a 200 and no conflict. -/
theorem C6_witness :
    update_student 1
      { name := .unset, email := .set (some "john@example.com"), age := .unset }
      .ok johnStore 5 =
      (.success 200
        (apply_student_update
          { name := .unset, email := .set (some "john@example.com"), age := .unset }
          johnBefore 5),
       { johnStore with students := johnStore.students.map (fun t =>
           if t.id == 1 then
             apply_student_update
               { name := .unset, email := .set (some "john@example.com"), age := .unset }
               johnBefore 5
           else t) }) :=
  C6_update_email_uniqueness.1 johnStore 1
    { name := .unset, email := .set (some "john@example.com"), age := .unset }
    5 johnBefore (by decide) (by decide)

/-- The empty PUT body for a student: no field supplied. -/
def empty_student_update : StudentUpdate :=
  { name := .unset, email := .unset, age := .unset }

/-- The empty PUT body for a course. -/
def empty_course_update : CourseUpdate :=
  { title := .unset, description := .unset, credits := .unset, instructor := .unset }

/-- C10: a PUT with an empty body on an existing student or course
succeeds with 200, refreshes updated_at to the current time, and
leaves every other stored field and every other record unchanged. -/
theorem C10_empty_patch :
    (∀ (s : Store) (sid : Nat) (st : Student) (now : Nat),
      get_student_row s sid = some st →
      update_student sid empty_student_update .ok s now =
        (.success 200 { st with updated_at := now },
         { s with students := s.students.map (fun t =>
             if t.id == sid then { st with updated_at := now } else t) })) ∧
    (∀ (s : Store) (cid : Nat) (co : Course) (now : Nat),
      get_course_row s cid = some co →
      update_course cid empty_course_update s now =
        (.success 200 { co with updated_at := now },
         { s with courses := s.courses.map (fun c =>
             if c.id == cid then { co with updated_at := now } else c) })) := by
  constructor
  · intro s sid st now hget
    simp only [update_student, hget, empty_student_update]
    simp [truthyStr, PField.val, apply_student_update, PField.apply]
  · intro s cid co now hget
    simp only [update_course, hget, empty_course_update]
    simp [apply_course_update, PField.apply]

/-- Witness for C10: an empty PUT on John refreshes only updated_at. -/
theorem C10_witness :
    update_student 1 empty_student_update .ok johnStore 5 =
      (.success 200 { johnBefore with updated_at := 5 },
       { johnStore with students := johnStore.students.map (fun t =>
           if t.id == 1 then { johnBefore with updated_at := 5 } else t) }) :=
  C10_empty_patch.1 johnStore 1 johnBefore 5 (by decide)

/-- Five student creations with distinct emails, run against the
empty store. -/
def five_creates : List Op :=
  [ .opCreateStudent { name := "S1", email := "s1@example.com", age := 20 } .ok 1,
    .opCreateStudent { name := "S2", email := "s2@example.com", age := 21 } .ok 2,
    .opCreateStudent { name := "S3", email := "s3@example.com", age := 22 } .ok 3,
    .opCreateStudent { name := "S4", email := "s4@example.com", age := 23 } .ok 4,
    .opCreateStudent { name := "S5", email := "s5@example.com", age := 24 } .ok 5 ]

/-- C8: the student list endpoint returns insertion order with skip as
offset and limit as count; concretely, after creating five students in
the empty store, skip=2 and limit=2 return exactly the third and
fourth created students in creation order. -/
theorem C8_list_skip_limit :
    (∀ (s : Store) (skip limit : Nat),
      read_students skip limit s = (s.students.drop skip).take limit) ∧
    read_students 2 2 (run_ops five_creates) =
      [ { id := 3, name := some "S3", email := some "s3@example.com"
          age := some 22, created_at := 3, updated_at := 3 },
        { id := 4, name := some "S4", email := some "s4@example.com"
          age := some 23, created_at := 4, updated_at := 4 } ] :=
  ⟨fun _ _ _ => rfl, by decide⟩

/-- C9: deleting an existing student succeeds with 204 unconditionally,
removes exactly that student, and leaves every course and every
enrollment (orphaned references included) unchanged; reading the same
id afterwards gives 404. -/
theorem C9_delete_student_no_cascade :
    ∀ (s : Store) (sid : Nat) (st : Student),
      get_student_row s sid = some st →
      (s.students.map (fun t => t.id)).Nodup →
      delete_student sid s =
        (.success 204 (),
         { s with students := s.students.filter (fun t => !(t.id == sid)) }) ∧
      (delete_student sid s).2.courses = s.courses ∧
      (delete_student sid s).2.enrollments = s.enrollments ∧
      (delete_student sid s).2.students.length + 1 = s.students.length ∧
      (∀ t ∈ s.students, t.id ≠ sid → t ∈ (delete_student sid s).2.students) ∧
      read_student sid (delete_student sid s).2 =
        .failure 404 "Student not found" := by
  intro s sid st hget hnodup
  have heq : delete_student sid s =
      (.success 204 (),
       { s with students := s.students.filter (fun t => !(t.id == sid)) }) := by
    simp only [delete_student, hget]
  refine ⟨heq, by rw [heq], by rw [heq], ?_, ?_, ?_⟩
  · rw [heq]
    have hst_mem : st ∈ s.students := List.mem_of_find?_eq_some hget
    have hst_id : st.id = sid := by
      have := List.find?_some hget
      simpa using this
    have hmemid : sid ∈ s.students.map (fun t => t.id) :=
      hst_id ▸ List.mem_map_of_mem _ hst_mem
    have hcount : (s.students.map (fun t => t.id)).count sid = 1 :=
      List.count_eq_one_of_mem hnodup hmemid
    have hcountP : s.students.countP (fun t => t.id == sid) = 1 := by
      rw [List.count_eq_countP, List.countP_map] at hcount
      exact hcount
    have hsplit := List.length_eq_countP_add_countP
      (p := fun t : Student => t.id == sid) (l := s.students)
    have hfilt : (s.students.filter (fun t => !(t.id == sid))).length
        = s.students.countP (fun t => !(t.id == sid)) :=
      (List.countP_eq_length_filter _ _).symm
    have hsame : s.students.countP (fun t => !(t.id == sid))
        = s.students.countP (fun t => decide ¬((fun t : Student => t.id == sid) t = true)) := by
      apply List.countP_congr
      intro t _
      simp
    simp only [hfilt, hsame]
    omega
  · intro t hmem hne
    rw [heq]
    exact List.mem_filter.mpr ⟨hmem, by simp [hne]⟩
  · rw [heq]
    simp only [read_student, get_student_row]
    have : (s.students.filter (fun t => !(t.id == sid))).find?
        (fun t => t.id == sid) = none := by
      apply List.find?_eq_none.mpr
      intro x hx
      have := (List.mem_filter.mp hx).2
      simpa using this
    rw [this]

/-- The store of the C9 witness: one student, one course and one
enrollment referencing both. -/
def c9Store : Store :=
  { students := [{ id := 1, name := some "A", email := some "a@b.com"
                   age := some 20, created_at := 0, updated_at := 0 }]
    courses := [{ id := 1, title := some "T", description := none
                  credits := some 3, instructor := some "I"
                  created_at := 0, updated_at := 0 }]
    enrollments := [{ id := 1, student_id := 1, course_id := 1
                      grade := none, enrollment_date := 0 }]
    nextStudentId := 2, nextCourseId := 2, nextEnrollmentId := 2 }

/-- Witness for C9: deleting the student whose enrollment still
references it succeeds and the enrollment row survives untouched. -/
theorem C9_witness :
    (delete_student 1 c9Store).2.enrollments = c9Store.enrollments ∧
    read_student 1 (delete_student 1 c9Store).2 =
      .failure 404 "Student not found" := by
  have h := C9_delete_student_no_cascade c9Store 1
    { id := 1, name := some "A", email := some "a@b.com"
      age := some 20, created_at := 0, updated_at := 0 }
    (by decide) (by decide)
  exact ⟨h.2.2.1, h.2.2.2.2.2⟩

/-- The (student_id, course_id) pairs of the enrollment table. -/
def enrollment_pairs (s : Store) : List (Nat × Nat) :=
  s.enrollments.map (fun e => (e.student_id, e.course_id))

/-- Inductive invariant on the enrollment table: the pairs are
pairwise distinct, the row ids are pairwise distinct, and every row id
is below the id counter. -/
def store_inv (s : Store) : Prop :=
  (enrollment_pairs s).Nodup ∧
  (s.enrollments.map (fun e => e.id)).Nodup ∧
  ∀ e ∈ s.enrollments, e.id < s.nextEnrollmentId

/-- The invariant only looks at the enrollment table and its counter,
so it carries over to any store with the same table and a counter at
least as large. -/
lemma store_inv_of_same {s s2 : Store} (h : store_inv s)
    (he : s2.enrollments = s.enrollments)
    (hn : s.nextEnrollmentId ≤ s2.nextEnrollmentId) : store_inv s2 := by
  obtain ⟨h1, h2, h3⟩ := h
  refine ⟨?_, ?_, ?_⟩
  · simpa [enrollment_pairs, he] using h1
  · simpa [he] using h2
  · intro e hmem
    rw [he] at hmem
    exact lt_of_lt_of_le (h3 e hmem) hn

/-- Every API operation preserves the enrollment invariant. -/
lemma store_inv_apply_op (s : Store) (op : Op) (h : store_inv s) :
    store_inv (apply_op s op) := by
  cases op with
  | opCreateStudent c w now =>
    refine store_inv_of_same h ?_ ?_ <;>
      (simp only [apply_op, create_student]; repeat' split) <;> simp
  | opUpdateStudent sid u w now =>
    refine store_inv_of_same h ?_ ?_ <;>
      (simp only [apply_op, update_student]; repeat' split) <;> simp
  | opDeleteStudent sid =>
    refine store_inv_of_same h ?_ ?_ <;>
      (simp only [apply_op, delete_student]; repeat' split) <;> simp
  | opCreateCourse c now =>
    refine store_inv_of_same h ?_ ?_ <;>
      (simp only [apply_op, create_course]; repeat' split) <;> simp
  | opUpdateCourse cid u now =>
    refine store_inv_of_same h ?_ ?_ <;>
      (simp only [apply_op, update_course]; repeat' split) <;> simp
  | opDeleteCourse cid =>
    refine store_inv_of_same h ?_ ?_ <;>
      (simp only [apply_op, delete_course]; repeat' split) <;> simp
  | opCreateEnrollment c w now =>
    simp only [apply_op, create_enrollment]
    cases hs : get_student_row s c.student_id with
    | none => exact h
    | some st =>
      cases hc : get_course_row s c.course_id with
      | none => exact h
      | some co =>
        cases hp : find_enrollment_by_pair s c.student_id c.course_id with
        | some e => exact h
        | none =>
          cases w with
          | integrityError => exact h
          | ok =>
            obtain ⟨h1, h2, h3⟩ := h
            have hnotpair : (c.student_id, c.course_id) ∉ enrollment_pairs s := by
              intro hmem
              obtain ⟨e, hemem, hepair⟩ := List.mem_map.mp hmem
              have := List.find?_eq_none.mp hp e hemem
              simp only [Prod.mk.injEq] at hepair
              simp [hepair.1, hepair.2] at this
            have hnotid : s.nextEnrollmentId ∉ s.enrollments.map (fun e => e.id) := by
              intro hmem
              obtain ⟨e, hemem, heid⟩ := List.mem_map.mp hmem
              exact absurd heid (Nat.ne_of_lt (h3 e hemem))
            refine ⟨?_, ?_, ?_⟩
            · simp only [enrollment_pairs, List.map_append, List.map_cons, List.map_nil]
              exact List.Nodup.append h1 (List.nodup_singleton _)
                (List.disjoint_singleton.mpr hnotpair)
            · simp only [List.map_append, List.map_cons, List.map_nil]
              exact List.Nodup.append h2 (List.nodup_singleton _)
                (List.disjoint_singleton.mpr hnotid)
            · intro e hmem
              simp only [List.mem_append, List.mem_singleton] at hmem
              cases hmem with
              | inl hmem => exact Nat.lt_succ_of_lt (h3 e hmem)
              | inr hmem => rw [hmem]; exact Nat.lt_succ_self _
  | opUpdateEnrollment eid u =>
    simp only [apply_op, update_enrollment]
    cases hf : get_enrollment_row s eid with
    | none => exact h
    | some db =>
      show store_inv
        { s with enrollments := s.enrollments.map (fun e =>
            if e.id == eid then { db with grade := u.grade.apply db.grade } else e) }
      obtain ⟨h1, h2, h3⟩ := h
      have hdb_mem : db ∈ s.enrollments := List.mem_of_find?_eq_some hf
      have hdb_id : db.id = eid := by
        have := List.find?_some hf
        simpa using this
      have hids : (s.enrollments.map (fun e =>
          if e.id == eid then { db with grade := u.grade.apply db.grade } else e)).map
            (fun e => e.id) = s.enrollments.map (fun e => e.id) := by
        rw [List.map_map]
        apply List.map_congr_left
        intro e hmem
        by_cases hcase : e.id = eid
        · simp [hcase, hdb_id]
        · simp [hcase]
      have heq : ∀ e ∈ s.enrollments, e.id = eid → e = db := by
        intro e hmem hid
        exact List.inj_on_of_nodup_map h2 hmem hdb_mem (by rw [hid, hdb_id])
      have hpairs : (s.enrollments.map (fun e =>
            if e.id == eid then { db with grade := u.grade.apply db.grade } else e)).map
              (fun e => (e.student_id, e.course_id))
            = s.enrollments.map (fun e => (e.student_id, e.course_id)) := by
        rw [List.map_map]
        apply List.map_congr_left
        intro e hmem
        by_cases hcase : e.id = eid
        · have := heq e hmem hcase
          simp [hcase, ← this]
        · simp [hcase]
      refine ⟨?_, ?_, ?_⟩
      · show ((s.enrollments.map (fun e =>
            if e.id == eid then { db with grade := u.grade.apply db.grade } else e)).map
              (fun e => (e.student_id, e.course_id))).Nodup
        rw [hpairs]
        exact h1
      · show ((s.enrollments.map (fun e =>
            if e.id == eid then { db with grade := u.grade.apply db.grade } else e)).map
              (fun e => e.id)).Nodup
        rw [hids]
        exact h2
      · intro e hmem
        obtain ⟨x, hxmem, hxe⟩ := List.mem_map.mp hmem
        subst hxe
        by_cases hcase : x.id = eid
        · simp only [hcase, beq_self_eq_true, if_true]
          exact hdb_id ▸ h3 db hdb_mem
        · have hx : (x.id == eid) = false := by simp [hcase]
          rw [hx]
          simp only [Bool.false_eq_true, if_false]
          exact h3 x hxmem
  | opDeleteEnrollment eid =>
    simp only [apply_op, delete_enrollment]
    cases hf : get_enrollment_row s eid with
    | none => exact h
    | some db =>
      show store_inv
        { s with enrollments := s.enrollments.filter (fun e => !(e.id == eid)) }
      obtain ⟨h1, h2, h3⟩ := h
      have hsub : List.Sublist (s.enrollments.filter (fun e => !(e.id == eid)))
          s.enrollments := List.filter_sublist _
      refine ⟨?_, ?_, ?_⟩
      · exact ((hsub.map _).nodup) h1
      · exact ((hsub.map _).nodup) h2
      · intro e hmem
        exact h3 e (hsub.mem hmem)

/-- C2: in every store reachable from the empty store by any sequence
of API operations, no two enrollment rows share the same
(student_id, course_id) pair — enrollment creation rejects an existing
pair and the enrollment patch schema exposes only grade. -/
theorem C2_pair_uniqueness_invariant :
    ∀ l : List Op,
      ((run_ops l).enrollments.map
        (fun e => (e.student_id, e.course_id))).Nodup := by
  have hrun : ∀ (l : List Op) (s : Store), store_inv s →
      store_inv (l.foldl apply_op s) := by
    intro l
    induction l with
    | nil => intro s h; exact h
    | cons op rest ih =>
      intro s h
      exact ih _ (store_inv_apply_op s op h)
  intro l
  have hempty : store_inv emptyStore := by
    refine ⟨?_, ?_, ?_⟩ <;> simp [store_inv, enrollment_pairs, emptyStore]
  exact (hrun l emptyStore hempty).1

/-- A store with one student (id 1) and one course (id 1) and no
enrollments: every create_enrollment pre-check passes. -/
def c3Store : Store :=
  { students := [{ id := 1, name := some "A", email := some "a@b.com"
                   age := some 20, created_at := 0, updated_at := 0 }]
    courses := [{ id := 1, title := some "T", description := none
                  credits := some 3, instructor := some "I"
                  created_at := 0, updated_at := 0 }]
    enrollments := []
    nextStudentId := 2, nextCourseId := 2, nextEnrollmentId := 1 }

/-- Counterexample to C3: in a state where all enrollment pre-checks
pass, a constraint violation raised by the store at commit time is
surfaced by POST /enrollments/ as a generic 500, not as the 404 or 400
the pre-check would have produced. -/
theorem C3_counterexample :
    (create_enrollment { student_id := 1, course_id := 1, grade := none }
      .integrityError c3Store 7).1 =
      .failure 500 "An error occurred while creating the enrollment" := by
  decide

/-- C3 amended: student create and update catch a write-time
IntegrityError and translate it to the pre-check's 400 conflict status
(with a softer message); enrollment create has no such handler, so a
write-time violation falls through to the generic handler and is
returned as a 500. -/
theorem C3_amended_write_time_translation :
    (∀ (s : Store) (c : StudentCreate) (now : Nat),
      find_student_by_email s (some c.email) = none →
      create_student c .integrityError s now =
        (.failure 400 "Failed to create student. Email may already exist.", s)) ∧
    (∀ (s : Store) (sid : Nat) (u : StudentUpdate) (now : Nat) (st : Student),
      get_student_row s sid = some st →
      find_student_by_email s u.email.val = none →
      update_student sid u .integrityError s now =
        (.failure 400 "Failed to update student. Email may already exist.", s)) ∧
    (∀ (s : Store) (c : EnrollmentCreate) (now : Nat) (st : Student) (co : Course),
      get_student_row s c.student_id = some st →
      get_course_row s c.course_id = some co →
      find_enrollment_by_pair s c.student_id c.course_id = none →
      create_enrollment c .integrityError s now =
        (.failure 500 "An error occurred while creating the enrollment", s)) := by
  refine ⟨?_, ?_, ?_⟩
  · intro s c now hf
    simp [create_student, hf]
  · intro s sid u now st hget hf
    simp only [update_student, hget]
    by_cases hc : (truthyStr u.email.val && !(u.email.val == st.email)) = true
    · rw [hc]
      simp [hf]
    · have hc2 : (truthyStr u.email.val && !(u.email.val == st.email)) = false := by
        simpa using hc
      rw [hc2]
      simp
  · intro s c now st co hs hc hp
    simp [create_enrollment, hs, hc, hp]

/-- Witness for the amended C3: a student creation in the empty store
whose commit raises an IntegrityError is reported as a 400 with the
store unchanged. -/
theorem C3_amended_witness :
    create_student { name := "A", email := "a@b.com", age := 20 }
      .integrityError emptyStore 0 =
      (.failure 400 "Failed to create student. Email may already exist.",
       emptyStore) :=
  C3_amended_write_time_translation.1 emptyStore
    { name := "A", email := "a@b.com", age := 20 } 0 rfl

/-- C7: input violating a field schema is rejected with 422 before the
handler (hence the store) is reached, for every create and update
endpoint of every entity, and the store is returned unchanged; age=0,
credits=0 and a syntactically invalid email are such violations. -/
theorem C7_validation_before_store :
    (∀ (c : StudentCreate) (w : WriteOutcome) (s : Store) (now : Nat),
      student_create_valid c = false →
      post_students c w s now = (.failure 422 "validation error", s)) ∧
    (∀ (sid : Nat) (u : StudentUpdate) (w : WriteOutcome) (s : Store) (now : Nat),
      student_update_valid u = false →
      put_students sid u w s now = (.failure 422 "validation error", s)) ∧
    (∀ (c : CourseCreate) (s : Store) (now : Nat),
      course_create_valid c = false →
      post_courses c s now = (.failure 422 "validation error", s)) ∧
    (∀ (cid : Nat) (u : CourseUpdate) (s : Store) (now : Nat),
      course_update_valid u = false →
      put_courses cid u s now = (.failure 422 "validation error", s)) ∧
    (∀ (c : EnrollmentCreate) (w : WriteOutcome) (s : Store) (now : Nat),
      enrollment_create_valid c = false →
      post_enrollments c w s now = (.failure 422 "validation error", s)) ∧
    (∀ (eid : Nat) (u : EnrollmentUpdate) (s : Store),
      enrollment_update_valid u = false →
      put_enrollments eid u s = (.failure 422 "validation error", s)) ∧
    student_create_valid
      { name := "John Doe", email := "john@example.com", age := 0 } = false ∧
    course_create_valid
      { title := "Math", description := none, credits := 0
        instructor := "Prof" } = false ∧
    student_create_valid
      { name := "John Doe", email := "invalid-email", age := 20 } = false := by
  refine ⟨?_, ?_, ?_, ?_, ?_, ?_, by decide, by decide, by decide⟩ <;>
    intros <;>
    simp_all [post_students, put_students, post_courses, put_courses,
      post_enrollments, put_enrollments]

/-- Witness for C7: posting a student with age 0 yields a 422 and the
empty store is unchanged. -/
theorem C7_witness :
    post_students { name := "John Doe", email := "john@example.com", age := 0 }
      .ok emptyStore 0 = (.failure 422 "validation error", emptyStore) :=
  C7_validation_before_store.1
    { name := "John Doe", email := "john@example.com", age := 0 }
    .ok emptyStore 0 (by decide)

end SCM
